import Mathlib

/-!
Verification development for the Presupuestos-NAUKA front end
(src/frontend/app.js), a browser view-state controller for budget
line items ("partidas") with a hierarchical category/concept/detail
summary.

Numbers are modelled as exact rationals (ℚ).  A form field that has
gone through JavaScript's parseFloat is modelled as an `Option ℚ`:
`none` stands for NaN (empty or non-numeric input), `some v` for a
parsed numeric value.  JavaScript's `x || d` fallback on numbers is
falsy exactly on NaN and 0, which `jsOr` reproduces.
-/

namespace Nauka

/-- JavaScript `x || d` on a parseFloat result: NaN (`none`) and 0 are
falsy and give the default `d`; any other number passes through. -/
def jsOr (x : Option ℚ) (d : ℚ) : ℚ :=
  match x with
  | none => d
  | some v => if v = 0 then d else v

/-- Percent read convention, `parseFloat(field.value) / 100 || 0`
(app.js lines 437-438 and 464-465): whole-number percent divided by
100, with NaN falling back to 0. -/
def leerPct (x : Option ℚ) : ℚ :=
  jsOr (x.map (fun v => v / 100)) 0

/-- The partida modal form fields as read by `calcularTotales` and
`guardarPartida`; numeric fields carry their parseFloat result. -/
structure FormModal where
  partidaId : String
  categoria : String
  concepto : String
  detalle : String
  proveedor : String
  unidad : String
  cantidad : Option ℚ
  moneda : String
  unitario : Option ℚ
  sobrecosto : Option ℚ
  iva : Option ℚ
  tc : Option ℚ
  tipo : String
  notas : String
deriving DecidableEq

/-- All local quantities computed by `calcularTotales`
(app.js lines 434-450): the five parsed inputs and the six derived
totals. -/
structure Totales where
  cantidad : ℚ
  unitario : ℚ
  sobrecostoPct : ℚ
  ivaPct : ℚ
  tc : ℚ
  importeSinIva : ℚ
  sobrecosto : ℚ
  baseConSobrecosto : ℚ
  iva : ℚ
  total : ℚ
  totalMxn : ℚ
deriving DecidableEq

/-- `calcularTotales` (app.js lines 434-450): reads the five numeric
fields with their falsy fallbacks (0 for quantity, unit price and the
two percents; 1 for the exchange rate) and derives the live totals. -/
def calcularTotales (f : FormModal) : Totales :=
  let cantidad := jsOr f.cantidad 0
  let unitario := jsOr f.unitario 0
  let sobrecostoPct := leerPct f.sobrecosto
  let ivaPct := leerPct f.iva
  let tc := jsOr f.tc 1
  let importeSinIva := cantidad * unitario
  let sobrecosto := importeSinIva * sobrecostoPct
  let baseConSobrecosto := importeSinIva + sobrecosto
  let iva := baseConSobrecosto * ivaPct
  let total := baseConSobrecosto + iva
  let totalMxn := total * tc
  { cantidad := cantidad, unitario := unitario, sobrecostoPct := sobrecostoPct,
    ivaPct := ivaPct, tc := tc, importeSinIva := importeSinIva,
    sobrecosto := sobrecosto, baseConSobrecosto := baseConSobrecosto,
    iva := iva, total := total, totalMxn := totalMxn }

/-- The JSON payload `datos` built by `guardarPartida`
(app.js lines 455-469). -/
structure DatosPartida where
  categoria : String
  concepto : String
  detalle : String
  proveedor : String
  unidad : String
  cantidad : ℚ
  moneda : String
  unitario : ℚ
  sobrecosto_pct : ℚ
  iva_pct : ℚ
  tipo_cambio : ℚ
  es_parametro : String
  notas : String
deriving DecidableEq

/-- Payload construction of `guardarPartida` (app.js lines 452-469):
the numeric fields use the same parse-with-fallback convention as
`calcularTotales`; percents are stored divided by 100. -/
def guardarPartida (f : FormModal) : DatosPartida :=
  { categoria := f.categoria, concepto := f.concepto, detalle := f.detalle,
    proveedor := f.proveedor, unidad := f.unidad,
    cantidad := jsOr f.cantidad 0,
    moneda := f.moneda,
    unitario := jsOr f.unitario 0,
    sobrecosto_pct := leerPct f.sobrecosto,
    iva_pct := leerPct f.iva,
    tipo_cambio := jsOr f.tc 1,
    es_parametro := f.tipo,
    notas := f.notas }

/-- Percent display convention of `editarPartida`
(app.js lines 416-417): `(partida.sobrecosto_pct || 0) * 100`,
a stored fraction shown as a whole-number percent. -/
def mostrarPctEditar (x : Option ℚ) : ℚ :=
  (jsOr x 0) * 100

/-- Concrete form of the spec's worked example: qty 2, unit price 100,
overcost percent 10, IVA percent 16, exchange rate 1. -/
def ejemploC1 : FormModal :=
  { partidaId := "", categoria := "", concepto := "", detalle := "",
    proveedor := "", unidad := "", cantidad := some 2, moneda := "MXN",
    unitario := some 100, sobrecosto := some 10, iva := some 16,
    tc := some 1, tipo := "PRESUPUESTO", notas := "" }

/-- C1: `calcularTotales` computes the live totals by the documented
formula — subtotal = qty·unitPrice, overcost = subtotal·overcostPct,
base = subtotal+overcost, tax = base·ivaPct, total = base+tax,
totalInBaseCurrency = total·exchangeRate — and on qty=2, unitPrice=100,
overcost 10, IVA 16, exchange rate 1 it yields 200, 20, 220, 35.2,
255.2 and 255.2. -/
theorem calcularTotales_formula :
    (∀ f : FormModal,
      (calcularTotales f).importeSinIva
          = (calcularTotales f).cantidad * (calcularTotales f).unitario ∧
      (calcularTotales f).sobrecosto
          = (calcularTotales f).importeSinIva * (calcularTotales f).sobrecostoPct ∧
      (calcularTotales f).baseConSobrecosto
          = (calcularTotales f).importeSinIva + (calcularTotales f).sobrecosto ∧
      (calcularTotales f).iva
          = (calcularTotales f).baseConSobrecosto * (calcularTotales f).ivaPct ∧
      (calcularTotales f).total
          = (calcularTotales f).baseConSobrecosto + (calcularTotales f).iva ∧
      (calcularTotales f).totalMxn
          = (calcularTotales f).total * (calcularTotales f).tc) ∧
    (calcularTotales ejemploC1).importeSinIva = 200 ∧
    (calcularTotales ejemploC1).sobrecosto = 20 ∧
    (calcularTotales ejemploC1).baseConSobrecosto = 220 ∧
    (calcularTotales ejemploC1).iva = 35.2 ∧
    (calcularTotales ejemploC1).total = 255.2 ∧
    (calcularTotales ejemploC1).totalMxn = 255.2 := by
  refine ⟨fun f => ⟨rfl, rfl, rfl, rfl, rfl, rfl⟩, ?_, ?_, ?_, ?_, ?_, ?_⟩ <;>
    norm_num [calcularTotales, ejemploC1, jsOr, leerPct]

/-- C5: the whole↔fraction percent conversion round-trips — storing
divides by 100 (`guardarPartida`), displaying multiplies by 100
(`editarPartida`), so display (store p) = p for every percent p,
including the 16 default. -/
theorem pct_roundTrip :
    (∀ f : FormModal,
      (guardarPartida f).sobrecosto_pct = leerPct f.sobrecosto ∧
      (guardarPartida f).iva_pct = leerPct f.iva) ∧
    (∀ p : ℚ, mostrarPctEditar (some (leerPct (some p))) = p) ∧
    mostrarPctEditar (some (leerPct (some 16))) = 16 := by
  refine ⟨fun f => ⟨rfl, rfl⟩, ?_, ?_⟩
  · intro p
    by_cases hp : p = 0
    · subst hp
      norm_num [mostrarPctEditar, leerPct, jsOr]
    · have h100 : p / 100 ≠ 0 := by
        simp [div_eq_zero_iff, hp]
      simp [mostrarPctEditar, leerPct, jsOr, h100, hp]
  · norm_num [mostrarPctEditar, leerPct, jsOr]

/-- C10: a falsy exchange-rate input (NaN or an explicit 0) is
substituted with 1 in both `calcularTotales` and `guardarPartida`,
while falsy quantity, unit price and percent fields are substituted
with 0. -/
theorem tipoCambio_fallback :
    ∀ f : FormModal,
      ((f.tc = none ∨ f.tc = some 0) →
        (calcularTotales f).tc = 1 ∧ (guardarPartida f).tipo_cambio = 1) ∧
      ((f.cantidad = none ∨ f.cantidad = some 0) →
        (calcularTotales f).cantidad = 0 ∧ (guardarPartida f).cantidad = 0) ∧
      ((f.unitario = none ∨ f.unitario = some 0) →
        (calcularTotales f).unitario = 0 ∧ (guardarPartida f).unitario = 0) ∧
      ((f.sobrecosto = none ∨ f.sobrecosto = some 0) →
        (calcularTotales f).sobrecostoPct = 0 ∧ (guardarPartida f).sobrecosto_pct = 0) ∧
      ((f.iva = none ∨ f.iva = some 0) →
        (calcularTotales f).ivaPct = 0 ∧ (guardarPartida f).iva_pct = 0) := by
  intro f
  refine ⟨?_, ?_, ?_, ?_, ?_⟩ <;>
    rintro (h | h) <;>
      simp [calcularTotales, guardarPartida, jsOr, leerPct, h]

/-- Closed witness for C10 at a concrete form: every numeric field NaN
except the exchange rate, entered as 0. -/
theorem tipoCambio_fallback_witness :
    (calcularTotales
        { partidaId := "", categoria := "", concepto := "", detalle := "",
          proveedor := "", unidad := "", cantidad := none, moneda := "MXN",
          unitario := none, sobrecosto := none, iva := none,
          tc := some 0, tipo := "PRESUPUESTO", notas := "" }).tc = 1 ∧
    (guardarPartida
        { partidaId := "", categoria := "", concepto := "", detalle := "",
          proveedor := "", unidad := "", cantidad := none, moneda := "MXN",
          unitario := none, sobrecosto := none, iva := none,
          tc := some 0, tipo := "PRESUPUESTO", notas := "" }).tipo_cambio = 1 ∧
    (calcularTotales
        { partidaId := "", categoria := "", concepto := "", detalle := "",
          proveedor := "", unidad := "", cantidad := none, moneda := "MXN",
          unitario := none, sobrecosto := none, iva := none,
          tc := some 0, tipo := "PRESUPUESTO", notas := "" }).cantidad = 0 := by
  refine ⟨?_, ?_, ?_⟩
  · exact ((tipoCambio_fallback _).1 (Or.inr rfl)).1
  · exact ((tipoCambio_fallback _).1 (Or.inr rfl)).2
  · exact ((tipoCambio_fallback _).2.1 (Or.inl rfl)).1

/-!
Expansion state of the hierarchical summary (app.js lines 540-551):
a JavaScript object is modelled as an association list of key/value
pairs; property lookup takes the first matching key (keys stay unique
because assignment replaces in place), a missing key is `undefined`,
hence falsy, hence `false` here.
-/

/-- JS property read `o[k]` on a boolean map: first matching entry,
`false` when absent (undefined is falsy). -/
def objGet : List (String × Bool) → String → Bool
  | [], _ => false
  | p :: ps, k => if p.1 = k then p.2 else objGet ps k

/-- Does the object have the key. -/
def hasKey : List (String × Bool) → String → Bool
  | [], _ => false
  | p :: ps, k => p.1 = k || hasKey ps k

/-- JS property write `o[k] = v`: replace in place, or append a new
key when absent. -/
def objSet (m : List (String × Bool)) (k : String) (v : Bool) :
    List (String × Bool) :=
  if hasKey m k then m.map (fun p => if p.1 = k then (k, v) else p)
  else m ++ [(k, v)]

/-- Character-list prefix test. -/
def esPrefijo : List Char → List Char → Bool
  | [], _ => true
  | _ :: _, [] => false
  | a :: as, b :: bs => a = b && esPrefijo as bs

/-- JS `s.startsWith(pre)`. -/
def startsWithStr (s pre : String) : Bool :=
  esPrefijo pre.data s.data

/-- `estadoExpansion` (app.js lines 541-544): category flags keyed by
category name, concept flags keyed by "category:concept". -/
structure EstadoExpansion where
  categorias : List (String × Bool)
  conceptos : List (String × Bool)
deriving DecidableEq

/-- Observable actions of a toggle handler, in program order: the
synchronous visual update (`actualizarVistaCategoria` /
`actualizarVistaConcepto`) and the child fetch issued through
`fetchAPI` (`cargarConceptosCategoria` / `cargarDetallesConcepto`). -/
inductive Accion where
  | vista (categoria : String)
  | vistaConcepto (categoria concepto : String)
  | solicitudConceptos (categoria : String)
  | solicitudDetalles (categoria concepto : String)
deriving DecidableEq

/-- Is the action a network request. -/
def esSolicitud : Accion → Bool
  | Accion.solicitudConceptos _ => true
  | Accion.solicitudDetalles _ _ => true
  | _ => false

/-- `toggleCategoria` (app.js lines 647-666): when expanded, collapse
the flag and every concept key prefixed by "categoria:" and update the
view; when collapsed, mark expanded, update the view, then fetch the
category's concepts. -/
def toggleCategoria (s : EstadoExpansion) (categoria : String) :
    EstadoExpansion × List Accion :=
  if objGet s.categorias categoria then
    ({ categorias := objSet s.categorias categoria false,
       conceptos := s.conceptos.map (fun p =>
         if startsWithStr p.1 (categoria ++ ":") then (p.1, false) else p) },
     [Accion.vista categoria])
  else
    ({ s with categorias := objSet s.categorias categoria true },
     [Accion.vista categoria, Accion.solicitudConceptos categoria])

/-- `toggleConcepto` (app.js lines 747-761): same two-state toggle on
the "categoria:concepto" key; expanding fetches the concept's
details. -/
def toggleConcepto (s : EstadoExpansion) (categoria concepto : String) :
    EstadoExpansion × List Accion :=
  let key := categoria ++ ":" ++ concepto
  if objGet s.conceptos key then
    ({ s with conceptos := objSet s.conceptos key false },
     [Accion.vistaConcepto categoria concepto])
  else
    ({ s with conceptos := objSet s.conceptos key true },
     [Accion.vistaConcepto categoria concepto,
      Accion.solicitudDetalles categoria concepto])

theorem objGet_map_set (m : List (String × Bool)) (k : String) (v : Bool)
    (h : hasKey m k = true) :
    objGet (m.map (fun p => if p.1 = k then (k, v) else p)) k = v := by
  induction m with
  | nil => simp [hasKey] at h
  | cons p ps ih =>
    by_cases hp : p.1 = k
    · simp [objGet, hp]
    · have h' : hasKey ps k = true := by
        simp [hasKey, hp] at h
        exact h
      simp [objGet, hp, ih h']

theorem objGet_append_single (m : List (String × Bool)) (k : String) (v : Bool)
    (h : hasKey m k = false) :
    objGet (m ++ [(k, v)]) k = v := by
  induction m with
  | nil => simp [objGet]
  | cons p ps ih =>
    simp [hasKey] at h
    simp [objGet, h.1, ih h.2]

theorem objGet_objSet (m : List (String × Bool)) (k : String) (v : Bool) :
    objGet (objSet m k v) k = v := by
  by_cases h : hasKey m k
  · simp [objSet, h, objGet_map_set]
  · simp at h
    simp [objSet, h, objGet_append_single]

theorem objGet_map_prefixFalse (m : List (String × Bool)) (c k : String)
    (hk : startsWithStr k (c ++ ":") = true) :
    objGet (m.map (fun p =>
      if startsWithStr p.1 (c ++ ":") then (p.1, false) else p)) k = false := by
  induction m with
  | nil => simp [objGet]
  | cons p ps ih =>
    by_cases hp : p.1 = k
    · subst hp
      simp [objGet, hk]
    · cases hpre : startsWithStr p.1 (c ++ ":") <;>
        simp [objGet, hpre, hp, ih]

/-- C2: toggling a currently expanded category collapses its flag and
every concept key of the map prefixed by "categoria:", and the
transition issues no network request (its action trace is only the
synchronous view update). -/
theorem toggleCategoria_colapsa (s : EstadoExpansion) (c : String)
    (h : objGet s.categorias c = true) :
    objGet (toggleCategoria s c).1.categorias c = false ∧
    (∀ k : String, k ∈ s.conceptos.map Prod.fst →
        startsWithStr k (c ++ ":") = true →
        objGet (toggleCategoria s c).1.conceptos k = false) ∧
    (toggleCategoria s c).2 = [Accion.vista c] ∧
    ((toggleCategoria s c).2.all (fun a => !(esSolicitud a))) = true := by
  have ht : toggleCategoria s c
      = ({ categorias := objSet s.categorias c false,
           conceptos := s.conceptos.map (fun p =>
             if startsWithStr p.1 (c ++ ":") then (p.1, false) else p) },
         [Accion.vista c]) := by
    simp [toggleCategoria, h]
  rw [ht]
  exact ⟨objGet_objSet _ _ _,
    fun k _ hk => objGet_map_prefixFalse _ _ _ hk, rfl, rfl⟩

/-- Closed witness for C2 at the spec's example: category
"Carpinterias" expanded with concept key "Carpinterias:Closets"
expanded; one toggle collapses both and issues no request. -/
theorem toggleCategoria_colapsa_witness :
    objGet (toggleCategoria
        ⟨[("Carpinterias", true)], [("Carpinterias:Closets", true)]⟩
        "Carpinterias").1.categorias "Carpinterias" = false ∧
    objGet (toggleCategoria
        ⟨[("Carpinterias", true)], [("Carpinterias:Closets", true)]⟩
        "Carpinterias").1.conceptos "Carpinterias:Closets" = false ∧
    ((toggleCategoria
        ⟨[("Carpinterias", true)], [("Carpinterias:Closets", true)]⟩
        "Carpinterias").2.all (fun a => !(esSolicitud a))) = true := by
  have h := toggleCategoria_colapsa
    ⟨[("Carpinterias", true)], [("Carpinterias:Closets", true)]⟩
    "Carpinterias" (by decide)
  exact ⟨h.1, h.2.1 "Carpinterias:Closets" (by decide) (by decide), h.2.2.2⟩

/-- C9: expanding a collapsed category (or concept) first marks it
expanded, then the action trace is exactly the synchronous view update
followed by the child fetch — the fetch is issued on every expand,
whatever the prior state, since no children cache exists. -/
theorem toggle_expande (s : EstadoExpansion) (c con : String) :
    (objGet s.categorias c = false →
      objGet (toggleCategoria s c).1.categorias c = true ∧
      (toggleCategoria s c).1.conceptos = s.conceptos ∧
      (toggleCategoria s c).2
        = [Accion.vista c, Accion.solicitudConceptos c]) ∧
    (objGet s.conceptos (c ++ ":" ++ con) = false →
      objGet (toggleConcepto s c con).1.conceptos (c ++ ":" ++ con) = true ∧
      (toggleConcepto s c con).2
        = [Accion.vistaConcepto c con, Accion.solicitudDetalles c con]) := by
  constructor
  · intro h
    have ht : toggleCategoria s c
        = ({ s with categorias := objSet s.categorias c true },
           [Accion.vista c, Accion.solicitudConceptos c]) := by
      simp [toggleCategoria, h]
    rw [ht]
    exact ⟨objGet_objSet _ _ _, rfl, rfl⟩
  · intro h
    have ht : toggleConcepto s c con
        = ({ s with conceptos := objSet s.conceptos (c ++ ":" ++ con) true },
           [Accion.vistaConcepto c con, Accion.solicitudDetalles c con]) := by
      simp [toggleConcepto, h]
    rw [ht]
    exact ⟨objGet_objSet _ _ _, rfl⟩

/-- Closed witness for C9: from the initial (all collapsed) state,
expanding category "Carpinterias" and concept "Closets" each mark the
node expanded and emit view-update-then-fetch. -/
theorem toggle_expande_witness :
    (objGet (toggleCategoria ⟨[], []⟩ "Carpinterias").1.categorias
        "Carpinterias" = true ∧
      (toggleCategoria ⟨[], []⟩ "Carpinterias").2
        = [Accion.vista "Carpinterias",
           Accion.solicitudConceptos "Carpinterias"]) ∧
    (objGet (toggleConcepto ⟨[], []⟩ "Carpinterias" "Closets").1.conceptos
        ("Carpinterias" ++ ":" ++ "Closets") = true ∧
      (toggleConcepto ⟨[], []⟩ "Carpinterias" "Closets").2
        = [Accion.vistaConcepto "Carpinterias" "Closets",
           Accion.solicitudDetalles "Carpinterias" "Closets"]) := by
  have h := toggle_expande ⟨[], []⟩ "Carpinterias" "Closets"
  exact ⟨⟨(h.1 rfl).1, (h.1 rfl).2.2⟩, (h.2 rfl).1, (h.2 rfl).2⟩

/-!
Global view state and project switching (app.js lines 7-14, 89-102,
151-184, 494-506, 546-551).
-/

/-- `filtrosResumen` (app.js lines 547-551). -/
structure FiltrosResumen where
  torre : String
  piso : String
  depto : String
deriving DecidableEq

/-- A line item as served by the backend and held in
`estado.partidas` (the table rows of `mostrarPartidas`). -/
structure Partida where
  id : Int
  categoria : String
  concepto : String
  detalle : String
  proveedor : String
  unidad : String
  cantidad : Option ℚ
  moneda : String
  unitario : Option ℚ
  sobrecosto_pct : Option ℚ
  iva_pct : Option ℚ
  tipo_cambio : Option ℚ
  es_parametro : String
  notas : String
deriving DecidableEq

/-- The module-level mutable view state: `estado` (app.js lines 7-14)
together with `estadoExpansion` and `filtrosResumen` of the summary
tree. -/
structure ViewState where
  proyectoActual : Option Int
  partidas : List Partida
  filtroCategoria : String
  filtroConcepto : String
  filtrosResumen : FiltrosResumen
  estadoExpansion : EstadoExpansion
deriving DecidableEq

/-- Synchronous reset performed by `cargarProyecto` before its first
`await` (app.js lines 153-155): summary filters and expansion state
back to their initial empty values. -/
def resetResumenProyecto (s : ViewState) : ViewState :=
  { s with filtrosResumen := { torre := "", piso := "", depto := "" },
           estadoExpansion := { categorias := [], conceptos := [] } }

/-- Synchronous prefix of a project switch: the change handler
(app.js lines 91-96) sets `estado.proyectoActual`, then
`cargarProyecto` (lines 151-155) resets `filtrosResumen` and
`estadoExpansion` before its first `await` — nothing else in the
state is touched before the first fetch resolves. -/
def cambiarProyecto (s : ViewState) (proyectoId : Int) : ViewState :=
  { resetResumenProyecto s with proyectoActual := some proyectoId }

/-- C3 counterexample: switching from project 1 (with a category
filter "Carpinterias" and a concept filter "Closets" selected) to
project 2 does not reset the filter selections to their initial empty
values — `estado.filtroCategoria` and `estado.filtroConcepto` survive
the switch, contradicting the claim. -/
theorem cambiarProyecto_no_resetea_filtros :
    ¬ ((cambiarProyecto
          { proyectoActual := some 1, partidas := [],
            filtroCategoria := "Carpinterias", filtroConcepto := "Closets",
            filtrosResumen := { torre := "A", piso := "2", depto := "201" },
            estadoExpansion := ⟨[("Carpinterias", true)], []⟩ }
          2).filtroCategoria = "" ∧
       (cambiarProyecto
          { proyectoActual := some 1, partidas := [],
            filtroCategoria := "Carpinterias", filtroConcepto := "Closets",
            filtrosResumen := { torre := "A", piso := "2", depto := "201" },
            estadoExpansion := ⟨[("Carpinterias", true)], []⟩ }
          2).filtroConcepto = "") := by
  intro h
  exact absurd h.1 (by decide)

/-- C3 (amended): switching the active project resets the
hierarchical-summary expansion state and the summary filters to their
initial empty values before the first fetch for the new project
resolves, and records the new project id; the category and concept
filter selections are left unchanged. -/
theorem cambiarProyecto_reset :
    ∀ (s : ViewState) (proyectoId : Int),
      (cambiarProyecto s proyectoId).proyectoActual = some proyectoId ∧
      (cambiarProyecto s proyectoId).estadoExpansion
        = { categorias := [], conceptos := [] } ∧
      (cambiarProyecto s proyectoId).filtrosResumen
        = { torre := "", piso := "", depto := "" } ∧
      (cambiarProyecto s proyectoId).filtroCategoria = s.filtroCategoria ∧
      (cambiarProyecto s proyectoId).filtroConcepto = s.filtroConcepto := by
  intro s proyectoId
  exact ⟨rfl, rfl, rfl, rfl, rfl⟩

/-- Requests issued by the line-item handlers. -/
inductive Solicitud where
  | eliminar (id : Int)
  | recargarProyecto (proyectoId : Option Int)
deriving DecidableEq

/-- `eliminarPartida` (app.js lines 494-506): an early return when the
confirmation prompt is declined; otherwise a DELETE followed by a full
project reload.  `recarga` abstracts the state effect of
`cargarProyecto`, which only runs on the confirmed path. -/
def eliminarPartida (confirmado : Bool) (id : Int) (s : ViewState)
    (recarga : ViewState → ViewState) : ViewState × List Solicitud :=
  if confirmado then
    (recarga (resetResumenProyecto s),
     [Solicitud.eliminar id, Solicitud.recargarProyecto s.proyectoActual])
  else (s, [])

/-- C8: when the user declines the confirmation prompt,
`eliminarPartida` issues no request at all (in particular no DELETE)
and leaves the whole application state — partidas list included —
unchanged, whatever the reload would have done. -/
theorem eliminarPartida_cancelado :
    ∀ (id : Int) (s : ViewState) (recarga : ViewState → ViewState),
      eliminarPartida false id s recarga = (s, []) ∧
      (eliminarPartida false id s recarga).1.partidas = s.partidas := by
  intro id s recarga
  exact ⟨rfl, rfl⟩

/-!
API gateway `fetchAPI` (app.js lines 46-63).  The transport outcome is
either a rejected fetch (network failure) or an HTTP response whose
body is the parsed JSON value (the backend is specified to serve
JSON); `response.ok` is the Fetch-standard 2xx test.  The catch block
logs and rethrows, so the net effect on the caller is as modelled.
-/

/-- Outcome of the underlying `fetch` call. -/
inductive RespuestaRed (β : Type) where
  | falla (err : String)
  | respuesta (status : Nat) (body : β)
deriving DecidableEq

/-- Error raised by `fetchAPI`: the `HTTP error! status: ...` throw,
or the propagated transport error. -/
inductive ErrorAPI where
  | http (status : Nat)
  | red (err : String)
deriving DecidableEq

/-- `fetchAPI`'s result handling (app.js lines 55-62): non-2xx throws
an error carrying the status, a 2xx response returns the parsed body,
a transport failure is rethrown unchanged. -/
def fetchAPI {β : Type} (r : RespuestaRed β) : Except ErrorAPI β :=
  match r with
  | RespuestaRed.falla e => Except.error (ErrorAPI.red e)
  | RespuestaRed.respuesta status body =>
      if 200 ≤ status ∧ status ≤ 299 then Except.ok body
      else Except.error (ErrorAPI.http status)

/-- Header merge of `fetchAPI` (app.js lines 50-53): the object
literal starts with the JSON content type and spreads the caller's
headers after it, so a caller-supplied key overrides. -/
def cabecerasSolicitud (callerHeaders : List (String × String)) :
    List (String × String) :=
  ("Content-Type", "application/json") :: callerHeaders

/-- JS object lookup for an object built from an entry list: the last
write to a key wins. -/
def buscarCabecera : List (String × String) → String → Option String
  | [], _ => none
  | p :: ps, k =>
      match buscarCabecera ps k with
      | some v => some v
      | none => if p.1 = k then some p.2 else none

/-- C4: `fetchAPI` attaches the JSON content-type header merged with
(and overridable by) caller headers, returns the parsed body on a 2xx
status, raises an error carrying the status on a non-2xx status,
propagates the transport error on network failure, and raises exactly
when the response is non-successful or the transport fails. -/
theorem fetchAPI_contract (β : Type) :
    (∀ hs : List (String × String),
      (buscarCabecera hs "Content-Type" = none →
        buscarCabecera (cabecerasSolicitud hs) "Content-Type"
          = some "application/json") ∧
      (∀ k v, buscarCabecera hs k = some v →
        buscarCabecera (cabecerasSolicitud hs) k = some v)) ∧
    (∀ (status : Nat) (body : β), 200 ≤ status → status ≤ 299 →
      fetchAPI (RespuestaRed.respuesta status body) = Except.ok body) ∧
    (∀ (status : Nat) (body : β), ¬ (200 ≤ status ∧ status ≤ 299) →
      fetchAPI (RespuestaRed.respuesta status body)
        = Except.error (ErrorAPI.http status)) ∧
    (∀ e : String,
      fetchAPI (RespuestaRed.falla e : RespuestaRed β)
        = Except.error (ErrorAPI.red e)) ∧
    (∀ r : RespuestaRed β,
      (∃ err, fetchAPI r = Except.error err) ↔
        ((∃ e, r = RespuestaRed.falla e) ∨
         (∃ status body, r = RespuestaRed.respuesta status body ∧
            ¬ (200 ≤ status ∧ status ≤ 299)))) := by
  refine ⟨?_, ?_, ?_, ?_, ?_⟩
  · intro hs
    constructor
    · intro h
      simp [cabecerasSolicitud, buscarCabecera, h]
    · intro k v h
      simp [cabecerasSolicitud, buscarCabecera, h]
  · intro status body h1 h2
    simp [fetchAPI, h1, h2]
  · intro status body h
    simp [fetchAPI, h]
  · intro e
    rfl
  · intro r
    cases r with
    | falla e =>
      simp [fetchAPI]
    | respuesta status body =>
      by_cases h : 200 ≤ status ∧ status ≤ 299
      · simp [fetchAPI, h]
      · simp [fetchAPI, h]
        omega

/-- Closed witness for C4: a caller header overrides the content type,
the default applies otherwise, a 200 returns the body, a 404 raises
with its status, and a network failure propagates. -/
theorem fetchAPI_contract_witness :
    buscarCabecera (cabecerasSolicitud []) "Content-Type"
      = some "application/json" ∧
    buscarCabecera (cabecerasSolicitud [("Content-Type", "text/plain")])
      "Content-Type" = some "text/plain" ∧
    fetchAPI (RespuestaRed.respuesta 200 (7 : Nat)) = Except.ok 7 ∧
    fetchAPI (RespuestaRed.respuesta 404 (0 : Nat))
      = Except.error (ErrorAPI.http 404) ∧
    fetchAPI (RespuestaRed.falla "down" : RespuestaRed Nat)
      = Except.error (ErrorAPI.red "down") := by
  refine ⟨?_, ?_, ?_, ?_, ?_⟩
  · exact ((fetchAPI_contract Nat).1 []).1 (by decide)
  · exact ((fetchAPI_contract Nat).1 [("Content-Type", "text/plain")]).2
      "Content-Type" "text/plain" (by decide)
  · exact (fetchAPI_contract Nat).2.1 200 7 (by decide) (by decide)
  · exact (fetchAPI_contract Nat).2.2.1 404 0 (by decide)
  · exact (fetchAPI_contract Nat).2.2.2.1 "down"

/-!
Percentage-of-total rendering in `renderizarCategorias`
(app.js lines 614-627): the ternary guard on `totalProyectoGlobal`
and the `toFixed(1)` display.
-/

/-- The guarded percentage (app.js line 616):
`totalProyectoGlobal > 0 ? cat.total_mxn / totalProyectoGlobal * 100 : 0`. -/
def porcentajeCategoria (totalMxn totalProyecto : ℚ) : ℚ :=
  if 0 < totalProyecto then totalMxn / totalProyecto * 100 else 0

/-- JavaScript `x.toFixed(1)`: round to one decimal, ties toward the
larger candidate, rendered with exactly one digit after the point. -/
def toFixed1 (q : ℚ) : String :=
  let n : Int := round (q * 10)
  let sign := if n < 0 then "-" else ""
  let m := n.natAbs
  sign ++ toString (m / 10) ++ "." ++ toString (m % 10)

/-- The rendered cell `${porcentaje.toFixed(1)}%` (app.js line 627). -/
def renderPorcentaje (totalMxn totalProyecto : ℚ) : String :=
  toFixed1 (porcentajeCategoria totalMxn totalProyecto) ++ "%"

/-- C6: with a zero project total, the percentage for any category
total takes the guarded branch — the division never happens — and the
rendered cell is exactly "0.0%". -/
theorem porcentaje_totalCero :
    ∀ totalMxn : ℚ,
      porcentajeCategoria totalMxn 0 = 0 ∧
      renderPorcentaje totalMxn 0 = "0.0%" := by
  intro totalMxn
  have hp : porcentajeCategoria totalMxn 0 = 0 := by
    simp [porcentajeCategoria]
  refine ⟨hp, ?_⟩
  rw [renderPorcentaje, hp]
  norm_num [toFixed1]
  rfl

/-!
`escapeHtml` (app.js lines 934-942): five sequential global
single-character regex replacements, ampersand first.  A global
replace of one character is a character-by-character expansion of the
string, which `replaceAllChar` embeds.  The `if (!str) return ''`
guard coincides with the replacement chain on the empty string.
-/

/-- JS `str.replace(/c/g, r)` for a single character `c`. -/
def replaceAllChar (c : Char) (r : List Char) : List Char → List Char
  | [] => []
  | x :: xs => (if x = c then r else [x]) ++ replaceAllChar c r xs

/-- The five replacement passes of `escapeHtml`, in source order:
`&`, `<`, `>`, `"`, `'`. -/
def escapeHtmlList (s : List Char) : List Char :=
  replaceAllChar '\'' "&#039;".data
    (replaceAllChar '"' "&quot;".data
      (replaceAllChar '>' "&gt;".data
        (replaceAllChar '<' "&lt;".data
          (replaceAllChar '&' "&amp;".data s))))

/-- `escapeHtml` on strings. -/
def escapeHtml (s : String) : String :=
  String.mk (escapeHtmlList s.data)

/-- Modelled from the spec's wording for the refinement comparison:
each special character maps directly to its HTML entity, every other
character to itself, with no second pass over the introduced
entities. -/
def escapeHtmlChar (c : Char) : List Char :=
  if c = '&' then "&amp;".data
  else if c = '<' then "&lt;".data
  else if c = '>' then "&gt;".data
  else if c = '"' then "&quot;".data
  else if c = '\'' then "&#039;".data
  else [c]

/-- Character-wise escaping of a whole string (the spec-side
definition). -/
def escapeHtmlSpec : List Char → List Char
  | [] => []
  | x :: xs => escapeHtmlChar x ++ escapeHtmlSpec xs

theorem replaceAllChar_append (c : Char) (r a b : List Char) :
    replaceAllChar c r (a ++ b)
      = replaceAllChar c r a ++ replaceAllChar c r b := by
  induction a with
  | nil => simp [replaceAllChar]
  | cons x xs ih => simp [replaceAllChar, ih]

theorem escapeHtmlList_append (a b : List Char) :
    escapeHtmlList (a ++ b) = escapeHtmlList a ++ escapeHtmlList b := by
  simp [escapeHtmlList, replaceAllChar_append]

theorem escapeHtmlList_single (x : Char) :
    escapeHtmlList [x] = escapeHtmlChar x := by
  by_cases h1 : x = '&'
  · subst h1; decide
  · by_cases h2 : x = '<'
    · subst h2; decide
    · by_cases h3 : x = '>'
      · subst h3; decide
      · by_cases h4 : x = '"'
        · subst h4; decide
        · by_cases h5 : x = '\''
          · subst h5; decide
          · simp [escapeHtmlList, replaceAllChar, escapeHtmlChar,
              h1, h2, h3, h4, h5]

theorem escapeHtmlList_eq_spec (s : List Char) :
    escapeHtmlList s = escapeHtmlSpec s := by
  induction s with
  | nil => rfl
  | cons x xs ih =>
    have hx : escapeHtmlList (x :: xs)
        = escapeHtmlList [x] ++ escapeHtmlList xs :=
      escapeHtmlList_append [x] xs
    rw [hx, escapeHtmlList_single, ih]
    rfl

/-- C7: `escapeHtml` replaces every occurrence of `&`, `<`, `>`, `"`
and `'` with its HTML entity — since the ampersand pass runs first,
the result is exactly the character-wise escaping, with no
double-escaping of introduced entities — and the category name
`<b>"X"</b>` comes out with all special characters escaped. -/
theorem escapeHtml_escapa :
    (∀ s : String, escapeHtml s = String.mk (escapeHtmlSpec s.data)) ∧
    escapeHtml "<b>\"X\"</b>" = "&lt;b&gt;&quot;X&quot;&lt;/b&gt;" := by
  constructor
  · intro s
    rw [escapeHtml, escapeHtmlList_eq_spec]
  · decide

end Nauka
